import Mathlib

/-!
Shallow embedding of the SALUD access-grant engine (demo-mode implementation).

Sources embedded here:
* `src/frontend/src/lib/aleo/demo-storage.ts` (`DemoStorageService`):
  `storeAccessGrant`, `getAccessGrant`, `isAccessTokenValid`,
  `revokeAccessGrant`, `storeTransaction`, `computeAccessToken`.
* `src/frontend/src/lib/aleo/client.ts` (`SaludAleoClient`, demo-mode
  branches): `grantAccess`, `verifyAccess`, `revokeAccess`.
* `src/frontend/src/lib/aleo/types.ts` / `config.ts`: the duration-limit
  constants.

Modelling conventions:
* JavaScript objects used as string-keyed dictionaries become association
  lists with overwrite-on-assignment semantics (`mapSet` / `mapGet`).
* The simulated block height (`getCurrentBlockHeight`) is passed in as an
  explicit `currentBlock : Nat` argument; wall-clock timestamps
  (`Date.now()`) and generated transaction ids become explicit arguments.
* JavaScript strings are Lean `String`s; `charCodeAt` becomes
  `Char.toNat`, which agrees with it on all BMP code points.
* 32-bit signed-integer coercion (`x & x`, `x << 5`) is made explicit via
  `toInt32 : Int → Int`.
-/

set_option maxRecDepth 100000

namespace Salud

/-- JavaScript ToInt32: reduce an exact integer to the signed 32-bit range,
as performed by the bitwise operators in `computeAccessToken`. -/
def toInt32 (n : Int) : Int :=
  let m := n % 4294967296
  if m < 2147483648 then m else m - 4294967296

/-- One step of the hash loop in `DemoStorageService.computeAccessToken`:
`hash = ((hash << 5) - hash) + char; hash = hash & hash`.  `hash << 5` is
itself a 32-bit operation, and the final `& hash` coerces back to int32. -/
def hashStep (h : Int) (c : Nat) : Int :=
  toInt32 (toInt32 (h * 32) - h + (c : Int))

/-- The accumulated hash of a string, looping `hashStep` over its code
units starting from 0, as in `computeAccessToken`. -/
def stringHash (s : String) : Int :=
  s.data.foldl (fun h ch => hashStep h ch.toNat) 0

/-- Lowercase base-16 rendering of a natural number, as produced by
JavaScript `Math.abs(hash).toString(16)`. -/
def toHex (n : Nat) : String :=
  String.mk (Nat.toDigits 16 n)

/-- JavaScript `String.prototype.padStart(width, c)`: left-pad to `width`
characters (no-op when already at least that long). -/
def padStart (s : String) (width : Nat) (c : Char) : String :=
  String.mk (List.replicate (width - s.length) c) ++ s

/-- Source `DemoStorageService.computeAccessToken(recordId, doctor, nonce)`:
hash the plain concatenation of the three inputs with the 32-bit string
hash, then render `Math.abs(hash).toString(16).padStart(16, '0') + 'field'`. -/
def computeAccessToken (recordId doctor nonce : String) : String :=
  let combined := recordId ++ doctor ++ nonce
  let hash := stringHash combined
  padStart (toHex hash.natAbs) 16 '0' ++ "field"

/-- Constant `MIN_ACCESS_DURATION_BLOCKS` from `config.ts` (~1 hour). -/
def MIN_ACCESS_DURATION_BLOCKS : Nat := 240

/-- Constant `MAX_ACCESS_DURATION_BLOCKS` from `config.ts` (~7 days). -/
def MAX_ACCESS_DURATION_BLOCKS : Nat := 40320

/-- Constant `DEFAULT_ACCESS_DURATION_BLOCKS` from `config.ts` (~24 hours). -/
def DEFAULT_ACCESS_DURATION_BLOCKS : Nat := 5760

/-- The `DemoAccessGrant` interface of `demo-storage.ts`, field for field. -/
structure DemoAccessGrant where
  accessToken : String
  patient : String
  doctor : String
  recordId : String
  grantedAt : Nat
  expiresAt : Nat
  isRevoked : Bool
  encryptedData : String
  encryptionKey : String
deriving Repr, DecidableEq

/-- The `DemoTransaction` interface of `demo-storage.ts`; the untyped
`data` payload is not modelled (no claim depends on it). -/
structure DemoTransaction where
  id : String
  txType : String
  status : String
  timestamp : Nat
deriving Repr, DecidableEq

/-- A JavaScript object used as a string-keyed dictionary. -/
abbrev StrMap (α : Type) : Type := List (String × α)

/-- Property assignment `m[k] = v` on a JavaScript object: overwrite the
existing entry for `k`, or append a fresh one. -/
def mapSet {α : Type} (m : StrMap α) (k : String) (v : α) : StrMap α :=
  match m with
  | [] => [(k, v)]
  | (k₁, v₁) :: rest =>
      if k₁ = k then (k, v) :: rest else (k₁, v₁) :: mapSet rest k v

/-- Property lookup `m[k] || null` on a JavaScript object. -/
def mapGet {α : Type} (m : StrMap α) (k : String) : Option α :=
  match m with
  | [] => none
  | (k₁, v₁) :: rest => if k₁ = k then some v₁ else mapGet rest k

/-- The demo-mode persistent state: the `access_grants`, `access_tokens`
and `transactions` localStorage dictionaries of `DemoStorageService`. -/
structure DemoStorage where
  grants : StrMap DemoAccessGrant
  tokens : StrMap Bool
  transactions : StrMap DemoTransaction
deriving DecidableEq

/-- The empty demo store (fresh localStorage). -/
def emptyStorage : DemoStorage := ⟨[], [], []⟩

/-- Source `DemoStorageService.storeAccessGrant`: write the grant under its token
into `access_grants` and set the `access_tokens` entry to `true`. -/
def storeAccessGrant (s : DemoStorage) (grant : DemoAccessGrant) : DemoStorage :=
  { s with
      grants := mapSet s.grants grant.accessToken grant
      tokens := mapSet s.tokens grant.accessToken true }

/-- Source `DemoStorageService.getAccessGrant`. -/
def getAccessGrant (s : DemoStorage) (accessToken : String) : Option DemoAccessGrant :=
  mapGet s.grants accessToken

/-- Source `DemoStorageService.isAccessTokenValid`: the grant exists, is not
revoked, and `expiresAt > currentBlock`.  The simulated block height is
the explicit `currentBlock` argument. -/
def isAccessTokenValid (s : DemoStorage) (currentBlock : Nat) (accessToken : String) : Bool :=
  match getAccessGrant s accessToken with
  | none => false
  | some grant => !grant.isRevoked && decide (grant.expiresAt > currentBlock)

/-- Source `DemoStorageService.revokeAccessGrant`: `false` when the token is
unknown; otherwise set `isRevoked = true` on the stored grant, set the
`access_tokens` entry to `false`, and return `true`. -/
def revokeAccessGrant (s : DemoStorage) (accessToken : String) : Bool × DemoStorage :=
  match mapGet s.grants accessToken with
  | none => (false, s)
  | some grant =>
      (true,
        { s with
            grants := mapSet s.grants accessToken { grant with isRevoked := true }
            tokens := mapSet s.tokens accessToken false })

/-- Source `DemoStorageService.storeTransaction`. -/
def storeTransaction (s : DemoStorage) (tx : DemoTransaction) : DemoStorage :=
  { s with transactions := mapSet s.transactions tx.id tx }

/-- The `AleoMedicalRecord` interface of `types.ts`.  The source's last
field is spelled with a leading underscore (`_nonce`); it is named
`recordNonce` here. -/
structure AleoMedicalRecord where
  owner : String
  record_id : String
  data_hash : String
  data_part1 : String
  data_part2 : String
  data_part3 : String
  data_part4 : String
  record_type : Nat
  created_at : Nat
  version : Nat
  recordNonce : String
deriving Repr, DecidableEq

/-- Encoding `JSON.stringify({data_part1, ..., data_part4})` as built in demo-mode
`grantAccess` (JSON escaping of special characters inside the field values
is not modelled; no claim depends on the payload). -/
def stringifyDataParts (r : AleoMedicalRecord) : String :=
  "\x7b\"data_part1\":\"" ++ r.data_part1 ++
  "\",\"data_part2\":\"" ++ r.data_part2 ++
  "\",\"data_part3\":\"" ++ r.data_part3 ++
  "\",\"data_part4\":\"" ++ r.data_part4 ++ "\"\x7d"

/-- The `GrantAccessInput` interface of `types.ts`. -/
structure GrantAccessInput where
  medicalRecord : AleoMedicalRecord
  doctorAddress : String
  durationBlocks : Nat
  nonce : String
deriving Repr, DecidableEq

/-- The `VerifyAccessInput` interface of `types.ts`. -/
structure VerifyAccessInput where
  accessToken : String
  doctorAddress : String
  recordId : String
deriving Repr, DecidableEq

/-- Demo-mode `SaludAleoClient.grantAccess` (the state-relevant part):
derive the token with `computeAccessToken`, build the `DemoAccessGrant`
with `grantedAt = currentBlock`, `expiresAt = currentBlock +
durationBlocks`, `isRevoked = false`, store it with `storeAccessGrant`,
record a confirmed `grant_access` transaction, and return the token.
`patientAddress` is the connected demo account's address; `txId` and
`txTime` stand for `generateTransactionId()` and `Date.now()`. -/
def grantAccess (s : DemoStorage) (patientAddress : String) (input : GrantAccessInput)
    (currentBlock : Nat) (txId : String) (txTime : Nat) : DemoStorage × String :=
  let accessToken :=
    computeAccessToken input.medicalRecord.record_id input.doctorAddress input.nonce
  let grant : DemoAccessGrant :=
    { accessToken := accessToken
      patient := patientAddress
      doctor := input.doctorAddress
      recordId := input.medicalRecord.record_id
      grantedAt := currentBlock
      expiresAt := currentBlock + input.durationBlocks
      isRevoked := false
      encryptedData := stringifyDataParts input.medicalRecord
      encryptionKey := input.nonce }
  let s₁ := storeAccessGrant s grant
  let s₂ := storeTransaction s₁
    { id := txId, txType := "grant_access", status := "confirmed", timestamp := txTime }
  (s₂, accessToken)

/-- The `(isValid, failReason)` pair computed by demo-mode
`verifyAccess`. -/
structure VerifyResult where
  isValid : Bool
  failReason : String
deriving Repr, DecidableEq

/-- The decision chain of demo-mode `SaludAleoClient.verifyAccess`, in the
source's order: missing grant, then `isRevoked`, then doctor mismatch,
then record-id mismatch, then expiry (`expiresAt <= currentBlock`); the
fail reasons are the source's message strings (`failReason` stays `""`
when valid). -/
def verifyAccessCheck (s : DemoStorage) (input : VerifyAccessInput)
    (currentBlock : Nat) : VerifyResult :=
  match getAccessGrant s input.accessToken with
  | none => ⟨false, "Access token not found"⟩
  | some grant =>
      if grant.isRevoked then ⟨false, "Access has been revoked"⟩
      else if grant.doctor ≠ input.doctorAddress then ⟨false, "Doctor address mismatch"⟩
      else if grant.recordId ≠ input.recordId then ⟨false, "Record ID mismatch"⟩
      else if grant.expiresAt ≤ currentBlock then ⟨false, "Access has expired"⟩
      else ⟨true, ""⟩

/-- Demo-mode `SaludAleoClient.verifyAccess`: run the decision chain and
record a `verify_access` transaction whose status reflects the outcome. -/
def verifyAccess (s : DemoStorage) (input : VerifyAccessInput) (currentBlock : Nat)
    (txId : String) (txTime : Nat) : DemoStorage × VerifyResult :=
  let r := verifyAccessCheck s input currentBlock
  let s₁ := storeTransaction s
    { id := txId, txType := "verify_access"
      status := if r.isValid then "confirmed" else "failed", timestamp := txTime }
  (s₁, r)

/-- The outcome of demo-mode `SaludAleoClient.revokeAccess`, mirroring its
three exits: the two error returns and the success return. -/
inductive RevokeOutcome where
  | notFound
  | notAuthorized
  | revoked
deriving Repr, DecidableEq

/-- Demo-mode `SaludAleoClient.revokeAccess`: fail fast when the token is
unknown (`'Access token not found'`) or the connected account is not the
grant's patient (`'Not authorized to revoke this access'`); otherwise call
`revokeAccessGrant` and record a confirmed `revoke_access` transaction.
`requesterAddress` is the connected demo account's address. -/
def revokeAccess (s : DemoStorage) (requesterAddress : String) (accessToken : String)
    (txId : String) (txTime : Nat) : RevokeOutcome × DemoStorage :=
  match getAccessGrant s accessToken with
  | none => (.notFound, s)
  | some grant =>
      if grant.patient ≠ requesterAddress then (.notAuthorized, s)
      else
        let s₁ := (revokeAccessGrant s accessToken).2
        let s₂ := storeTransaction s₁
          { id := txId, txType := "revoke_access", status := "confirmed", timestamp := txTime }
        (.revoked, s₂)

/-- The spec's validity predicate, verbatim from its words: a grant is
valid at tick `t` iff `!revoked && t < expiresAtTick && t >= issuedAtTick`. -/
def specValid (g : DemoAccessGrant) (t : Nat) : Bool :=
  !g.isRevoked && decide (t < g.expiresAt) && decide (t ≥ g.grantedAt)

/-! ### Sample data used by concrete counterexamples and witnesses -/

/-- A sample stored grant: issued at tick 100 with duration 100. -/
def sampleGrant : DemoAccessGrant :=
  { accessToken := "tok0field"
    patient := "aleo1patient"
    doctor := "aleo1doctor"
    recordId := "rec42"
    grantedAt := 100
    expiresAt := 200
    isRevoked := false
    encryptedData := "ed"
    encryptionKey := "ek" }

/-- A different grant carrying the same token as `sampleGrant`. -/
def sampleGrantB : DemoAccessGrant :=
  { sampleGrant with doctor := "aleo1other", expiresAt := 300 }

/-- Grant `sampleGrant` with the revoked flag already set. -/
def sampleGrantRevoked : DemoAccessGrant :=
  { sampleGrant with isRevoked := true }

/-- A demo store holding exactly `sampleGrant`. -/
def sampleStorage : DemoStorage := storeAccessGrant emptyStorage sampleGrant

/-- A sample medical record with id `rec42`. -/
def sampleRecord : AleoMedicalRecord :=
  { owner := "aleo1patient"
    record_id := "rec42"
    data_hash := "dh"
    data_part1 := "d1"
    data_part2 := "d2"
    data_part3 := "d3"
    data_part4 := "d4"
    record_type := 1
    created_at := 0
    version := 1
    recordNonce := "rn" }

/-! ### Dictionary lemmas -/

/-- Reading back the key just assigned returns the assigned value. -/
theorem mapGet_mapSet_self {α : Type} (m : StrMap α) (k : String) (v : α) :
    mapGet (mapSet m k v) k = some v := by
  induction m with
  | nil => simp [mapSet, mapGet]
  | cons hd tl ih =>
      obtain ⟨k₁, v₁⟩ := hd
      by_cases h : k₁ = k <;> simp [mapSet, mapGet, h, ih]

/-- Assignment does not affect reads of other keys. -/
theorem mapGet_mapSet_ne {α : Type} (m : StrMap α) {k k' : String} (v : α)
    (h : k' ≠ k) : mapGet (mapSet m k v) k' = mapGet m k' := by
  have hk : k ≠ k' := Ne.symm h
  induction m with
  | nil => simp [mapSet, mapGet, hk]
  | cons hd tl ih =>
      obtain ⟨k₁, v₁⟩ := hd
      by_cases h₁ : k₁ = k
      · subst h₁
        simp [mapSet, mapGet, hk]
      · by_cases h₂ : k₁ = k' <;> simp [mapSet, mapGet, h₁, h₂, hk, h, ih]

/-- Reassigning a key collapses with the previous assignment to that key. -/
theorem mapSet_mapSet_self {α : Type} (m : StrMap α) (k : String) (v v' : α) :
    mapSet (mapSet m k v) k v' = mapSet m k v' := by
  induction m with
  | nil => simp [mapSet]
  | cons hd tl ih =>
      obtain ⟨k₁, v₁⟩ := hd
      by_cases h : k₁ = k <;> simp [mapSet, h, ih]

/-- Keys after an assignment: unchanged when the key was present, extended
by the key otherwise. -/
theorem keys_mapSet {α : Type} (m : StrMap α) (k : String) (v : α) :
    (mapSet m k v).map Prod.fst =
      if k ∈ m.map Prod.fst then m.map Prod.fst else m.map Prod.fst ++ [k] := by
  induction m with
  | nil => simp [mapSet]
  | cons hd tl ih =>
      obtain ⟨k₁, v₁⟩ := hd
      by_cases h : k₁ = k
      · subst h
        simp [mapSet]
      · by_cases h₂ : k ∈ tl.map Prod.fst <;>
          simp [mapSet, h, h₂, ih, Ne.symm h]

/-- Assignment preserves key uniqueness of the dictionary. -/
theorem nodup_keys_mapSet {α : Type} (m : StrMap α) (k : String) (v : α)
    (h : (m.map Prod.fst).Nodup) : ((mapSet m k v).map Prod.fst).Nodup := by
  rw [keys_mapSet]
  by_cases hk : k ∈ m.map Prod.fst
  · simpa [hk] using h
  · simp only [hk, if_false]
    refine List.Nodup.append h (List.nodup_singleton k) ?_
    intro a ha hb
    rcases List.mem_singleton.mp hb with rfl
    exact hk ha

/-! ### Claims C1 - C4 -/

/-- Claim C1, counterexample: the claimed validity predicate requires
`t >= issuedAtTick`, but the implementation checks no lower bound.  For
the stored `sampleGrant` (issued at tick 100, expiring at 200, not
revoked), the code judges tick 50 valid while the spec predicate judges
it invalid, so the claimed equivalence fails at tick 50. -/
theorem claim1_counterexample :
    isAccessTokenValid sampleStorage 50 "tok0field" = true ∧
    specValid sampleGrant 50 = false ∧
    getAccessGrant sampleStorage "tok0field" = some sampleGrant := by decide

/-- Claim C1 (amended): every stored grant — revoked, expired or active —
is judged valid at tick `t` iff it is not revoked and `t < expiresAtTick`
(the implementation performs no `t >= issuedAtTick` check); and the
expiry boundary holds as claimed: for a grant issued at tick `T` with
duration `D >= 1`, not revoked and with matching grantee and record,
verification at `T + D - 1` is Valid and at `T + D` is Expired. -/
theorem claim1_validity_expiry (s : DemoStorage) (tok cd cr : String)
    (g : DemoAccessGrant) (T D : Nat)
    (hg : getAccessGrant s tok = some g) :
    (∀ t, isAccessTokenValid s t tok = (!g.isRevoked && decide (t < g.expiresAt))) ∧
    (g.grantedAt = T → g.expiresAt = T + D → 1 ≤ D → g.isRevoked = false →
      g.doctor = cd → g.recordId = cr →
      verifyAccessCheck s ⟨tok, cd, cr⟩ (T + D - 1) = ⟨true, ""⟩ ∧
      verifyAccessCheck s ⟨tok, cd, cr⟩ (T + D) = ⟨false, "Access has expired"⟩) := by
  constructor
  · intro t
    simp [isAccessTokenValid, hg]
  · intro hT hE hD hrev hdoc hrec
    constructor
    · have hcond : ¬ (g.expiresAt ≤ T + D - 1) := by omega
      simp [verifyAccessCheck, hg, hrev, hdoc, hrec, hcond]
    · have hcond : g.expiresAt ≤ T + D := by omega
      simp [verifyAccessCheck, hg, hrev, hdoc, hrec, hcond]

/-- Claim C1, witness: the validity-iff applied both to the unrevoked
`sampleGrant` in `sampleStorage` and to a stored already-revoked grant,
and the expiry boundary at issuance tick 100 with duration 100. -/
theorem claim1_validity_expiry_witness :
    (∀ t, isAccessTokenValid sampleStorage t "tok0field" =
      (!sampleGrant.isRevoked && decide (t < sampleGrant.expiresAt))) ∧
    (∀ t, isAccessTokenValid (storeAccessGrant emptyStorage sampleGrantRevoked) t
        "tok0field" =
      (!sampleGrantRevoked.isRevoked && decide (t < sampleGrantRevoked.expiresAt))) ∧
    verifyAccessCheck sampleStorage ⟨"tok0field", "aleo1doctor", "rec42"⟩ 199 =
      ⟨true, ""⟩ ∧
    verifyAccessCheck sampleStorage ⟨"tok0field", "aleo1doctor", "rec42"⟩ 200 =
      ⟨false, "Access has expired"⟩ :=
  ⟨(claim1_validity_expiry sampleStorage "tok0field" "aleo1doctor" "rec42"
      sampleGrant 100 100 (by decide)).1,
   (claim1_validity_expiry (storeAccessGrant emptyStorage sampleGrantRevoked)
      "tok0field" "aleo1doctor" "rec42" sampleGrantRevoked 100 100 (by decide)).1,
   (claim1_validity_expiry sampleStorage "tok0field" "aleo1doctor" "rec42"
      sampleGrant 100 100 (by decide)).2
     (by decide) (by decide) (by decide) (by decide) (by decide) (by decide)⟩

/-- Claim C2: issuance applies no duration clamping.  With requested
duration 0 the stored grant has `expiresAt - grantedAt = 0` (born
expired, invalid at its own issuance tick), not `MIN_ACCESS_DURATION_BLOCKS`;
with requested duration `MAX + 1000 = 41320` the stored difference is
41320, not `MAX_ACCESS_DURATION_BLOCKS`. -/
theorem claim2_no_clamping :
    ((getAccessGrant (grantAccess emptyStorage "aleo1patient"
        ⟨sampleRecord, "aleo1doctor", 0, "n1"⟩ 1000 "at1tx" 7).1
        "000000002da614b0field").map (fun g => (g.grantedAt, g.expiresAt))
      = some (1000, 1000)) ∧
    ((getAccessGrant (grantAccess emptyStorage "aleo1patient"
        ⟨sampleRecord, "aleo1doctor", 41320, "n1"⟩ 1000 "at1tx" 7).1
        "000000002da614b0field").map (fun g => g.expiresAt - g.grantedAt)
      = some 41320) ∧
    isAccessTokenValid (grantAccess emptyStorage "aleo1patient"
        ⟨sampleRecord, "aleo1doctor", 0, "n1"⟩ 1000 "at1tx" 7).1 1000
        "000000002da614b0field" = false ∧
    MIN_ACCESS_DURATION_BLOCKS = 240 ∧ MAX_ACCESS_DURATION_BLOCKS = 40320 := by
  decide

/-- Claim C3, counterexample: for the stored `sampleGrant`, verifying with
the correct token but both a wrong grantee and a wrong record id yields
the doctor-mismatch outcome, not the claimed `RecordMismatch`. -/
theorem claim3_counterexample :
    verifyAccessCheck sampleStorage ⟨"tok0field", "aleo1xdoc", "recXX"⟩ 150 =
      ⟨false, "Doctor address mismatch"⟩ ∧
    sampleGrant.doctor ≠ "aleo1xdoc" ∧ sampleGrant.recordId ≠ "recXX" ∧
    ("Doctor address mismatch" : String) ≠ "Record ID mismatch" := by decide

/-- Claim C3 (amended): after the existence check, the checks are applied
in the order Revoked, then GranteeMismatch, then RecordMismatch, then
Expired; in particular with the correct token but a wrong record id the
outcome is RecordMismatch only when the grantee matches, and when the
grantee also mismatches the outcome is GranteeMismatch. -/
theorem claim3_precedence (s : DemoStorage) (tok cd cr : String)
    (g : DemoAccessGrant) (t : Nat) (hg : getAccessGrant s tok = some g) :
    (g.isRevoked = true →
      verifyAccessCheck s ⟨tok, cd, cr⟩ t = ⟨false, "Access has been revoked"⟩) ∧
    (g.isRevoked = false → g.doctor ≠ cd →
      verifyAccessCheck s ⟨tok, cd, cr⟩ t = ⟨false, "Doctor address mismatch"⟩) ∧
    (g.isRevoked = false → g.doctor = cd → g.recordId ≠ cr →
      verifyAccessCheck s ⟨tok, cd, cr⟩ t = ⟨false, "Record ID mismatch"⟩) ∧
    (g.isRevoked = false → g.doctor = cd → g.recordId = cr → g.expiresAt ≤ t →
      verifyAccessCheck s ⟨tok, cd, cr⟩ t = ⟨false, "Access has expired"⟩) ∧
    (g.isRevoked = false → g.doctor = cd → g.recordId = cr → t < g.expiresAt →
      verifyAccessCheck s ⟨tok, cd, cr⟩ t = ⟨true, ""⟩) := by
  refine ⟨?_, ?_, ?_, ?_, ?_⟩
  · intro h1
    simp [verifyAccessCheck, hg, h1]
  · intro h1 h2
    simp [verifyAccessCheck, hg, h1, h2]
  · intro h1 h2 h3
    simp [verifyAccessCheck, hg, h1, h2, h3]
  · intro h1 h2 h3 h4
    simp [verifyAccessCheck, hg, h1, h2, h3, h4]
  · intro h1 h2 h3 h4
    have h5 : ¬ (g.expiresAt ≤ t) := by omega
    simp [verifyAccessCheck, hg, h1, h2, h3, h5]

/-- Claim C3, witness: the amended theorem applied to `sampleGrant` with a
mismatching grantee. -/
theorem claim3_precedence_witness :
    verifyAccessCheck sampleStorage ⟨"tok0field", "aleo1xdoc", "rec42"⟩ 150 =
      ⟨false, "Doctor address mismatch"⟩ :=
  (claim3_precedence sampleStorage "tok0field" "aleo1xdoc" "rec42" sampleGrant 150
    (by decide)).2.1 (by decide) (by decide)

/-- Claim C4: demo-mode issuance performs no self-grant check.  Granting
with `grantee = subjectOwner = "aleo1patient"` succeeds: it returns the
derived token and stores an unrevoked grant whose patient and doctor are
both that address. -/
theorem claim4_self_grant_stored :
    (grantAccess emptyStorage "aleo1patient"
        ⟨sampleRecord, "aleo1patient", 5760, "n1"⟩ 1000 "at1tx" 7).2 =
      computeAccessToken "rec42" "aleo1patient" "n1" ∧
    (getAccessGrant (grantAccess emptyStorage "aleo1patient"
        ⟨sampleRecord, "aleo1patient", 5760, "n1"⟩ 1000 "at1tx" 7).1
        (computeAccessToken "rec42" "aleo1patient" "n1")).map
        (fun g => (g.patient, g.doctor, g.grantedAt, g.expiresAt, g.isRevoked)) =
      some ("aleo1patient", "aleo1patient", 1000, 6760, false) := by decide

/-! ### Claims C5 - C7 -/

/-- Claim C5: revocation is monotonic, terminal and idempotent.  For a
stored grant: the revoke succeeds; after it, every stored grant keeps its
`grantedAt`, `expiresAt` and identity fields and a revoked flag is never
reset by revocation; every subsequent verification of the token answers
the revoked outcome at every clock value and for every claimed grantee
and record; and revoking a second time succeeds again and leaves the
state exactly as after the first revoke. -/
theorem claim5_revocation (s : DemoStorage) (tok : String) (g : DemoAccessGrant)
    (hg : getAccessGrant s tok = some g) :
    (revokeAccessGrant s tok).1 = true ∧
    (∀ tok' g', getAccessGrant (revokeAccessGrant s tok).2 tok' = some g' →
      ∃ g₁, getAccessGrant s tok' = some g₁ ∧
        g'.grantedAt = g₁.grantedAt ∧ g'.expiresAt = g₁.expiresAt ∧
        g'.patient = g₁.patient ∧ g'.doctor = g₁.doctor ∧
        g'.recordId = g₁.recordId ∧
        (g₁.isRevoked = true → g'.isRevoked = true)) ∧
    (∀ cd cr t, verifyAccessCheck (revokeAccessGrant s tok).2 ⟨tok, cd, cr⟩ t =
      ⟨false, "Access has been revoked"⟩) ∧
    revokeAccessGrant (revokeAccessGrant s tok).2 tok =
      (true, (revokeAccessGrant s tok).2) := by
  have hg' : mapGet s.grants tok = some g := hg
  have hrv : revokeAccessGrant s tok =
      (true, { s with grants := mapSet s.grants tok { g with isRevoked := true }
                      tokens := mapSet s.tokens tok false }) := by
    unfold revokeAccessGrant
    rw [hg']
  refine ⟨by rw [hrv], ?_, ?_, ?_⟩
  · intro tok' g' hget
    rw [hrv] at hget
    simp only [getAccessGrant] at hget
    by_cases h : tok' = tok
    · subst h
      rw [mapGet_mapSet_self] at hget
      refine ⟨g, hg, ?_⟩
      cases hget
      simp
    · rw [mapGet_mapSet_ne _ _ h] at hget
      exact ⟨g', hget, rfl, rfl, rfl, rfl, rfl, fun h₁ => h₁⟩
  · intro cd cr t
    rw [hrv]
    simp [verifyAccessCheck, getAccessGrant, mapGet_mapSet_self]
  · rw [hrv]
    unfold revokeAccessGrant
    rw [show mapGet (mapSet s.grants tok { g with isRevoked := true }) tok =
        some { g with isRevoked := true } from mapGet_mapSet_self _ _ _]
    simp [mapSet_mapSet_self]

/-- Claim C5, witness: the theorem applied to `sampleGrant` in
`sampleStorage`. -/
theorem claim5_revocation_witness :
    (revokeAccessGrant sampleStorage "tok0field").1 = true ∧
    (∀ cd cr t, verifyAccessCheck (revokeAccessGrant sampleStorage "tok0field").2
      ⟨"tok0field", cd, cr⟩ t = ⟨false, "Access has been revoked"⟩) ∧
    revokeAccessGrant (revokeAccessGrant sampleStorage "tok0field").2 "tok0field" =
      (true, (revokeAccessGrant sampleStorage "tok0field").2) :=
  ⟨(claim5_revocation sampleStorage "tok0field" sampleGrant (by decide)).1,
   (claim5_revocation sampleStorage "tok0field" sampleGrant (by decide)).2.2.1,
   (claim5_revocation sampleStorage "tok0field" sampleGrant (by decide)).2.2.2⟩

/-- Claim C6: a revoke request for an unknown token fails with the
not-found outcome, and a revoke request by a principal other than the
grant's patient fails with the not-authorized outcome; in both cases the
whole store — in particular the grant — is returned unchanged. -/
theorem claim6_unauthorized_revoke (s : DemoStorage) (req tok txId : String)
    (txTime : Nat) :
    (getAccessGrant s tok = none →
      revokeAccess s req tok txId txTime = (.notFound, s)) ∧
    (∀ g, getAccessGrant s tok = some g → g.patient ≠ req →
      revokeAccess s req tok txId txTime = (.notAuthorized, s)) := by
  constructor
  · intro h
    simp [revokeAccess, h]
  · intro g hg hne
    simp [revokeAccess, hg, hne]

/-- Claim C6, witness: an unknown token on the empty store, and a
revocation of `sampleGrant` requested by a third party. -/
theorem claim6_unauthorized_revoke_witness :
    revokeAccess emptyStorage "aleo1patient" "tokX" "at1tx" 7 =
      (.notFound, emptyStorage) ∧
    revokeAccess sampleStorage "aleo1mallory" "tok0field" "at1tx" 7 =
      (.notAuthorized, sampleStorage) :=
  ⟨(claim6_unauthorized_revoke emptyStorage "aleo1patient" "tokX" "at1tx" 7).1
     (by decide),
   (claim6_unauthorized_revoke sampleStorage "aleo1mallory" "tok0field" "at1tx" 7).2
     sampleGrant (by decide) (by decide)⟩

/-- Claim C7, counterexample: storing a second grant that carries an
already-stored token does not fail — it replaces the first grant (an
update, not a conflict): after the two stores the map holds exactly one
entry for the token, and it is the second grant. -/
theorem claim7_counterexample :
    getAccessGrant (storeAccessGrant (storeAccessGrant emptyStorage sampleGrant)
      sampleGrantB) "tok0field" = some sampleGrantB ∧
    sampleGrantB ≠ sampleGrant ∧
    sampleGrantB.accessToken = sampleGrant.accessToken ∧
    ((storeAccessGrant (storeAccessGrant emptyStorage sampleGrant)
      sampleGrantB).grants.map Prod.fst) = ["tok0field"] := by decide

/-- Claim C7 (amended): at most one grant record exists per token — key
uniqueness of the grants map is preserved by every store — but tokens are
not write-once: storing a grant for an existing token overwrites the
stored record (last write wins) and no token-collision error exists;
entries under other tokens are untouched. -/
theorem claim7_store_overwrites (s : DemoStorage) (g : DemoAccessGrant) :
    getAccessGrant (storeAccessGrant s g) g.accessToken = some g ∧
    (∀ tok', tok' ≠ g.accessToken →
      getAccessGrant (storeAccessGrant s g) tok' = getAccessGrant s tok') ∧
    ((s.grants.map Prod.fst).Nodup →
      ((storeAccessGrant s g).grants.map Prod.fst).Nodup) := by
  refine ⟨?_, ?_, ?_⟩
  · simp [getAccessGrant, storeAccessGrant, mapGet_mapSet_self]
  · intro tok' h
    simp [getAccessGrant, storeAccessGrant, mapGet_mapSet_ne _ _ h]
  · intro h
    exact nodup_keys_mapSet _ _ _ h

/-- Claim C7, witness: overwriting `sampleGrant` with `sampleGrantB` in
`sampleStorage`, with key uniqueness preserved. -/
theorem claim7_store_overwrites_witness :
    getAccessGrant (storeAccessGrant sampleStorage sampleGrantB)
      sampleGrantB.accessToken = some sampleGrantB ∧
    ((storeAccessGrant sampleStorage sampleGrantB).grants.map Prod.fst).Nodup :=
  ⟨(claim7_store_overwrites sampleStorage sampleGrantB).1,
   (claim7_store_overwrites sampleStorage sampleGrantB).2.2 (by decide)⟩

/-! ### Claims C8 - C10 -/

/-- Claim C8, counterexample: changing one input while fixing the other
two does not always change the token.  The 32-bit hash of the plain
concatenation collides on the two distinct record ids `"Aa"` and `"BB"`
with doctor and nonce fixed, so both derive the same token. -/
theorem claim8_counterexample :
    computeAccessToken "Aa" "d" "n" = computeAccessToken "BB" "d" "n" ∧
    ("Aa" : String) ≠ "BB" := by decide

/-- Claim C8 (amended): derivation is deterministic — equal input triples
always give equal tokens — but it is not input-sensitive: there exist two
distinct record ids that derive the same token with the doctor and nonce
held fixed. -/
theorem claim8_determinism (r₁ r₂ d₁ d₂ n₁ n₂ : String)
    (hr : r₁ = r₂) (hd : d₁ = d₂) (hn : n₁ = n₂) :
    computeAccessToken r₁ d₁ n₁ = computeAccessToken r₂ d₂ n₂ ∧
    ∃ a b dd nn, a ≠ b ∧
      computeAccessToken a dd nn = computeAccessToken b dd nn := by
  subst hr
  subst hd
  subst hn
  exact ⟨rfl, "Aa", "BB", "d", "n", by decide, by decide⟩

/-- Claim C8, witness: the amended theorem applied to the concrete triple
`("rec42", "aleo1doctor", "n1")` given twice. -/
theorem claim8_determinism_witness :
    computeAccessToken "rec42" "aleo1doctor" "n1" =
      computeAccessToken "rec42" "aleo1doctor" "n1" ∧
    ∃ a b dd nn, a ≠ b ∧
      computeAccessToken a dd nn = computeAccessToken b dd nn :=
  claim8_determinism "rec42" "rec42" "aleo1doctor" "aleo1doctor" "n1" "n1"
    rfl rfl rfl

/-- Claim C9: verification is read-only on grant state and idempotent: it
leaves the grants and access-tokens maps unchanged (it only appends a
`verify_access` transaction), and re-verifying the same input at the same
clock on the post-verification state returns the same outcome. -/
theorem claim9_verify_readonly (s : DemoStorage) (input : VerifyAccessInput)
    (currentBlock : Nat) (txId : String) (txTime : Nat) :
    (verifyAccess s input currentBlock txId txTime).1.grants = s.grants ∧
    (verifyAccess s input currentBlock txId txTime).1.tokens = s.tokens ∧
    (∀ txId' txTime',
      (verifyAccess ((verifyAccess s input currentBlock txId txTime).1) input
        currentBlock txId' txTime').2 =
      (verifyAccess s input currentBlock txId txTime).2) :=
  ⟨rfl, rfl, fun _ _ => rfl⟩

/-- One mutating operation on the demo store: `storeAccessGrant` or
`revokeAccessGrant`. -/
inductive DemoOp where
  | store (g : DemoAccessGrant)
  | revoke (tok : String)
deriving Repr, DecidableEq

/-- Application of one mutating operation. -/
def applyOp (s : DemoStorage) : DemoOp → DemoStorage
  | .store g => storeAccessGrant s g
  | .revoke tok => (revokeAccessGrant s tok).2

/-- Application of a sequence of mutating operations, left to right. -/
def applyOps (s : DemoStorage) (ops : List DemoOp) : DemoStorage :=
  ops.foldl applyOp s

/-- The claimed cache-consistency invariant: every stored grant's
`access_tokens` entry is `true` exactly when its revoked flag is `false`. -/
def cacheConsistent (s : DemoStorage) : Prop :=
  ∀ tok g, getAccessGrant s tok = some g →
    mapGet s.tokens tok = some (!g.isRevoked)

/-- Storing an unrevoked grant preserves cache consistency. -/
theorem cacheConsistent_store (s : DemoStorage) (g : DemoAccessGrant)
    (hrev : g.isRevoked = false) (hs : cacheConsistent s) :
    cacheConsistent (storeAccessGrant s g) := by
  intro tok g' hget
  simp only [getAccessGrant, storeAccessGrant] at hget ⊢
  by_cases h : tok = g.accessToken
  · subst h
    rw [mapGet_mapSet_self] at hget
    cases hget
    rw [mapGet_mapSet_self, hrev]
    rfl
  · rw [mapGet_mapSet_ne _ _ h] at hget
    rw [mapGet_mapSet_ne _ _ h]
    exact hs tok g' hget

/-- Revocation preserves cache consistency. -/
theorem cacheConsistent_revoke (s : DemoStorage) (tok : String)
    (hs : cacheConsistent s) : cacheConsistent (revokeAccessGrant s tok).2 := by
  cases hmg : mapGet s.grants tok with
  | none =>
      have hrv : revokeAccessGrant s tok = (false, s) := by
        unfold revokeAccessGrant
        rw [hmg]
      rw [hrv]
      exact hs
  | some g =>
      have hrv : revokeAccessGrant s tok =
          (true, { s with grants := mapSet s.grants tok { g with isRevoked := true }
                          tokens := mapSet s.tokens tok false }) := by
        unfold revokeAccessGrant
        rw [hmg]
      rw [hrv]
      intro tok' g' hget
      simp only [getAccessGrant] at hget ⊢
      by_cases h : tok' = tok
      · subst h
        rw [mapGet_mapSet_self] at hget
        cases hget
        rw [mapGet_mapSet_self]
        rfl
      · rw [mapGet_mapSet_ne _ _ h] at hget
        rw [mapGet_mapSet_ne _ _ h]
        exact hs tok' g' hget

/-- Cache consistency is preserved by every sequence of store and revoke
operations whose stored grants are all unrevoked at store time. -/
theorem cacheConsistent_applyOps (ops : List DemoOp) : ∀ (s : DemoStorage),
    (∀ g, DemoOp.store g ∈ ops → g.isRevoked = false) → cacheConsistent s →
    cacheConsistent (applyOps s ops) := by
  induction ops with
  | nil =>
      intro s _ hs
      exact hs
  | cons op rest ih =>
      intro s hops hs
      have h₁ : cacheConsistent (applyOp s op) := by
        cases op with
        | store g => exact cacheConsistent_store s g (hops g (by simp)) hs
        | revoke tok => exact cacheConsistent_revoke s tok hs
      exact ih (applyOp s op) (fun g hm => hops g (List.mem_cons_of_mem _ hm)) h₁

/-- Claim C10, counterexample: the one-operation sequence that stores an
already-revoked grant violates the claimed invariant — the grant is
stored with its revoked flag set, yet its `access_tokens` entry is `true`. -/
theorem claim10_counterexample :
    getAccessGrant (applyOps emptyStorage [DemoOp.store sampleGrantRevoked])
      "tok0field" = some sampleGrantRevoked ∧
    sampleGrantRevoked.isRevoked = true ∧
    mapGet (applyOps emptyStorage [DemoOp.store sampleGrantRevoked]).tokens
      "tok0field" = some true := by decide

/-- Claim C10 (amended): after every sequence of `storeAccessGrant` and
`revokeAccessGrant` operations in which every stored grant is unrevoked
at store time (as at the only issuance call site, which always stores
`isRevoked = false`), each stored grant's `access_tokens` entry is `true`
exactly when its revoked flag is `false`; and verification never modifies
the grants map or the access-tokens map — expiry is computed only on
read. -/
theorem claim10_cache_invariant (ops : List DemoOp) (s : DemoStorage)
    (hops : ∀ g, DemoOp.store g ∈ ops → g.isRevoked = false)
    (hs : cacheConsistent s) :
    cacheConsistent (applyOps s ops) ∧
    (∀ input currentBlock txId txTime,
      (verifyAccess s input currentBlock txId txTime).1.grants = s.grants ∧
      (verifyAccess s input currentBlock txId txTime).1.tokens = s.tokens) :=
  ⟨cacheConsistent_applyOps ops s hops hs,
   fun _ _ _ _ => ⟨rfl, rfl⟩⟩

/-- Claim C10, witness: the invariant after issuing `sampleGrant` and then
revoking its token, starting from the empty store. -/
theorem claim10_cache_invariant_witness :
    cacheConsistent (applyOps emptyStorage
      [DemoOp.store sampleGrant, DemoOp.revoke "tok0field"]) ∧
    (∀ input currentBlock txId txTime,
      (verifyAccess emptyStorage input currentBlock txId txTime).1.grants =
        emptyStorage.grants ∧
      (verifyAccess emptyStorage input currentBlock txId txTime).1.tokens =
        emptyStorage.tokens) :=
  claim10_cache_invariant [DemoOp.store sampleGrant, DemoOp.revoke "tok0field"]
    emptyStorage
    (by
      intro g hm
      simp only [List.mem_cons, List.not_mem_nil, or_false] at hm
      rcases hm with hm | hm
      · injection hm with h
        rw [h]
        rfl
      · simp at hm)
    (by
      intro tok g h
      simp [getAccessGrant, emptyStorage, mapGet] at h)

end Salud
